import Mathlib

/-!
Verification of the resume-checker repository against its specification.

The file embeds, as Lean definitions, the pure helper functions of
`src/app.py` (word-count bucketing, keyword-repetition detection, result
validation, the analysis driver and the improvement-suggestion fallback),
and — for the deterministic scoring engine that the specification selects
as its core but whose variant file is not present under `src/` — faithful
models built from the specification's own wording (each such definition is
marked `Modelled from the spec:`).

Python strings are modelled as Lean `String` values, Python integers as
`Int`/`Nat`, Python floats appearing only in the repetition-percentage
comparison as exact rationals `ℚ`, dictionaries with optional keys as
structures with `Option` fields, and the external LLM collaborator as an
explicit oracle argument (its invocation either returns text or fails).
All definitions are executable; no partial functions are used.
-/

namespace ResumeChecker

/-! ## Generic list/character helpers used by several embedded functions -/

/-- Maximal runs of characters satisfying `p`, accumulator-passing form.
`acc` holds the current run reversed. -/
def runsAux (p : Char → Bool) : List Char → List Char → List (List Char)
  | [], acc => if acc.isEmpty then [] else [acc.reverse]
  | c :: cs, acc =>
    if p c then runsAux p cs (c :: acc)
    else if acc.isEmpty then runsAux p cs []
    else acc.reverse :: runsAux p cs []

/-- Maximal runs of characters satisfying `p` inside `l`, in order.
This is how both Python `str.split()` (runs of non-whitespace) and digit-run
extraction are modelled. -/
def runsOf (p : Char → Bool) (l : List Char) : List (List Char) :=
  runsAux p l []

/-- Order-preserving case-sensitive deduplication, keeping first occurrences:
the model of iterating over the insertion-ordered keys of a Python
`collections.Counter`. -/
def dedupAux {α : Type} [BEq α] : List α → List α → List α
  | [], _ => []
  | x :: xs, seen =>
    if seen.contains x then dedupAux xs seen
    else x :: dedupAux xs (x :: seen)

/-- First-occurrence deduplication of a list. -/
def dedupFirst {α : Type} [BEq α] (l : List α) : List α :=
  dedupAux l []

/-- Number of occurrences of `w` in `ws` (a single `Counter` entry). -/
def countOccs (w : String) (ws : List String) : Nat :=
  (ws.filter (fun x => x == w)).length

/-- Worker for `mostCommon`: walks the deduplicated key list, keeping the
current best (word, count) pair; only a strictly larger count replaces the
best, so ties are resolved in favour of the earlier (first-seen) word,
exactly as `Counter.most_common` resolves them. -/
def mostCommonAux (ws : List String) : List String → Option (String × Nat) → Option (String × Nat)
  | [], best => best
  | w :: rest, best =>
    match best with
    | none => mostCommonAux ws rest (some (w, countOccs w ws))
    | some (bw, bc) =>
      if bc < countOccs w ws then mostCommonAux ws rest (some (w, countOccs w ws))
      else mostCommonAux ws rest (some (bw, bc))

/-- Model of `Counter(words).most_common(1)[0]`: the most frequent word of
`ws` together with its count (ties go to the first-seen word); `none` only
when `ws` is empty. -/
def mostCommon (ws : List String) : Option (String × Nat) :=
  mostCommonAux ws (dedupFirst ws) none

/-- Value of a decimal digit character. -/
def digitVal (c : Char) : Nat := c.toNat - 48

/-- Numeric value of a list of decimal digit characters. -/
def natOfDigits (ds : List Char) : Nat :=
  ds.foldl (fun a c => a * 10 + digitVal c) 0

/-- Regex word character `\w` (ASCII reading): letters, digits, underscore. -/
def isWordChar (c : Char) : Bool := c.isAlphanum || c == '_'

/-- Python `str.isdigit()` for the tokens at hand: nonempty and all digits. -/
def pyIsDigit (w : String) : Bool := !w.isEmpty && w.data.all Char.isDigit

/-- Worker for `pyTitle`: the boolean records whether the previous character
was alphabetic (i.e. we are inside a word). -/
def pyTitleAux : List Char → Bool → List Char
  | [], _ => []
  | c :: cs, prevAlpha =>
    (if c.isAlpha then (if prevAlpha then c.toLower else c.toUpper) else c)
      :: pyTitleAux cs c.isAlpha

/-- Model of Python `str.title()`: each alphabetic character that starts a
word (previous character non-alphabetic) is upper-cased, every other
alphabetic character lower-cased. -/
def pyTitle (s : String) : String :=
  String.mk (pyTitleAux s.data false)

/-- The character list of a string, lower-cased character by character: the
model of Python `str.lower()` (and the normal form used for
case-insensitive comparison of two strings). -/
def lowerChars (s : String) : List Char :=
  s.data.map Char.toLower

/-! ## Embedding of `get_word_count_status` (src/app.py lines 39-50) -/

/-- Word count of the resume text: the source strips the text, collapses
whitespace runs (`re.sub(r'\s+', ' ', text.strip())`) and calls
`str.split()`; the composite counts exactly the maximal runs of
non-whitespace characters. -/
def resume_word_count (text : String) : Nat :=
  (runsOf (fun c => !c.isWhitespace) text.data).length

/-- Embedding of `get_word_count_status`: bucket the resume by word count. -/
def get_word_count_status (text : String) : String :=
  let word_count := resume_word_count text
  if word_count < 200 then
    "⚠️ Too Short (" ++ toString word_count ++ " words)"
  else if 200 ≤ word_count ∧ word_count ≤ 600 then
    "✅ Optimal Length (" ++ toString word_count ++ " words)"
  else
    "⚠️ Too Long (" ++ toString word_count ++ " words)"

/-! ## Embedding of `get_repetition_status` (src/app.py lines 52-83) -/

/-- The stop-word set of `get_repetition_status`, copied from the source. -/
def stop_words : List String :=
  ["a", "about", "above", "after", "again", "against", "all", "am", "an", "and", "any", "are", "as", "at",
   "be", "because", "been", "before", "being", "below", "between", "both", "but", "by", "can", "did", "do",
   "does", "doing", "don", "down", "during", "each", "few", "for", "from", "further", "had", "has", "have",
   "having", "he", "her", "here", "hers", "herself", "him", "himself", "his", "how", "i", "if", "in", "into",
   "is", "it", "its", "itself", "just", "me", "more", "most", "my", "myself", "no", "nor", "not", "now", "of",
   "off", "on", "once", "only", "or", "other", "our", "ourselves", "out", "over", "own", "s", "same",
   "she", "should", "so", "some", "such", "t", "than", "that", "the", "their", "theirs", "them", "themselves",
   "then", "there", "these", "they", "this", "those", "through", "to", "too", "under", "until", "up", "very",
   "was", "we", "were", "what", "when", "where", "which", "while", "who", "whom", "why", "will", "with", "you",
   "your", "yours", "yourself", "yourselves", "experience", "work", "project", "company", "team", "role", "worked",
   "responsibilities", "development", "used", "using", "responsible"]

/-- The filtered word list of `get_repetition_status`: the text is
lower-cased, characters that are neither word characters nor whitespace are
removed (`re.sub(r'[^\w\s]', '', text.lower())`), the result is split on
whitespace, and stop words and all-digit tokens are dropped. -/
def repetition_words (text : String) : List String :=
  let cleaned := (lowerChars text).filter (fun c => isWordChar c || c.isWhitespace)
  let tokens := (runsOf (fun c => !c.isWhitespace) cleaned).map String.mk
  tokens.filter (fun w => !stop_words.contains w && !pyIsDigit w)

/-- Embedding of `get_repetition_status`: fewer than 20 filtered words is
low repetition; otherwise the most common word's percentage share of the
filtered list is compared (as an exact rational, standing for the Python
float) against the 4.5 threshold. -/
def get_repetition_status (text : String) : String :=
  let words := repetition_words text
  if words.length < 20 then "✅ Low Repetition"
  else
    match mostCommon words with
    | none => "✅ Low Repetition"
    | some (most_common_word, count) =>
      if ((count : ℚ) / (words.length : ℚ)) * 100 > 4.5 then
        "⚠️ High repetition of \x27" ++ pyTitle most_common_word ++ "\x27"
      else "✅ Low Repetition"

/-! ## Data model (the analysis-result dictionary of src/app.py) -/

/-- The partial record parsed from the collaborator's JSON answer: every key
may be absent, exactly as a Python dict handed to
`validate_analysis_result` may miss any of the required keys. -/
structure AnalysisFields where
  relevance_score : Option Int := none
  skills_match : Option Int := none
  years_experience : Option String := none
  education_level : Option String := none
  matched_skills : Option (List String) := none
  missing_skills : Option (List String) := none
  recommendation_summary : Option String := none
  uses_action_verbs : Option Bool := none
  has_quantifiable_results : Option Bool := none
  recommendation_score : Option Int := none
  improvement_suggestions : Option String := none
deriving DecidableEq

/-- The validated analysis result: all required keys present.  The two
quality fields are added by `analyze_single_resume` after validation, hence
are still optional here (`validate_analysis_result` leaves them unset). -/
structure AnalysisResult where
  relevance_score : Int
  skills_match : Int
  years_experience : String
  education_level : String
  matched_skills : List String
  missing_skills : List String
  recommendation_summary : String
  uses_action_verbs : Bool
  has_quantifiable_results : Bool
  recommendation_score : Int
  improvement_suggestions : String
  word_count_status : Option String := none
  repetition_status : Option String := none
deriving DecidableEq

/-- The record with every key absent (the dict `{}`). -/
def emptyFields : AnalysisFields := {}

/-! ## Embedding of `validate_analysis_result` (src/app.py lines 160-184) -/

/-- Embedding of `validate_analysis_result`: start from the documented
defaults, overwrite with whatever keys the input record carries
(`validated_result.update(result)` is `Option.getD`), then clamp the three
score fields into [0, 100] with `max(0, min(100, _))`. -/
def validate_analysis_result (result : AnalysisFields) : AnalysisResult :=
  { relevance_score := max 0 (min 100 (result.relevance_score.getD 0))
    skills_match := max 0 (min 100 (result.skills_match.getD 0))
    years_experience := result.years_experience.getD "Not Specified"
    education_level := result.education_level.getD "Not Specified"
    matched_skills := result.matched_skills.getD []
    missing_skills := result.missing_skills.getD []
    recommendation_summary := result.recommendation_summary.getD "Analysis incomplete."
    uses_action_verbs := result.uses_action_verbs.getD false
    has_quantifiable_results := result.has_quantifiable_results.getD false
    recommendation_score := max 0 (min 100 (result.recommendation_score.getD 0))
    improvement_suggestions := result.improvement_suggestions.getD "No suggestions generated." }

/-! ## Embedding of `get_improvement_suggestions` (src/app.py lines 110-158) -/

/-- The data interpolated into the suggestion prompt template: the first 500
characters of the job description (`job_description[:500]`), the
recommendation score, the comma-joined missing skills (or the string
"None" when the join is empty, Python `", ".join(xs) or "None"`), the
summary and the experience field. -/
structure SuggestionPrompt where
  jd : String
  score : Int
  missing_skills : String
  summary : String
  experience : String
deriving DecidableEq

/-- Builds the suggestion prompt from a validated analysis result, exactly
as the body of `get_improvement_suggestions` reads the dict before the
collaborator call. -/
def suggestion_prompt (job_description : String) (r : AnalysisResult) : SuggestionPrompt :=
  { jd := job_description.take 500
    score := r.recommendation_score
    missing_skills :=
      (let joined := String.intercalate ", " r.missing_skills
       if joined = "" then "None" else joined)
    summary := r.recommendation_summary
    experience := r.years_experience }

/-- The external suggestion collaborator: given the prompt data it either
answers with text (`response.content`) or fails (any raised exception). -/
def SuggestionOracle : Type := SuggestionPrompt → Except String String

/-- Embedding of `get_improvement_suggestions`: invoke the collaborator on
the composed prompt; a successful answer is returned as-is, any failure is
caught by the `except` block and replaced by the fixed fallback text.  The
function is total: no failure escapes to the caller. -/
def get_improvement_suggestions (job_description : String) (analysis_result : AnalysisResult)
    (llm : SuggestionOracle) : String :=
  match llm (suggestion_prompt job_description analysis_result) with
  | Except.ok content => content
  | Except.error _ => "Suggestions could not be generated at this time."

/-! ## Embedding of `analyze_single_resume` (src/app.py lines 186-324) -/

/-- Outcome of the main collaborator call followed by JSON extraction:
either a parsed field record (`clean_json_response` found JSON and
`json.loads` accepted it), or no JSON could be extracted
(`clean_json_response` returned `None`), or some step raised (the model
call itself, or `json.loads`), which the enclosing `try` converts into an
error message and a `None` return. -/
inductive MainOutcome where
  | parsed (fields : AnalysisFields)
  | noJson
  | raised (msg : String)
deriving DecidableEq

/-- Embedding of `analyze_single_resume`: on a parsed collaborator answer
the record is validated, the improvement suggestions are generated (with
local fallback) and the two quality metrics are attached; on a failed
extraction or a raised exception the function returns `none` — the Python
function returns `None` after `st.error`, it never re-raises. -/
def analyze_single_resume (resume_text job_description : String)
    (main : MainOutcome) (suggest : SuggestionOracle) : Option AnalysisResult :=
  match main with
  | MainOutcome.raised _ => none
  | MainOutcome.noJson => none
  | MainOutcome.parsed fields =>
    let analysis_result := validate_analysis_result fields
    let suggestions := get_improvement_suggestions job_description analysis_result suggest
    some { analysis_result with
           improvement_suggestions := suggestions
           word_count_status := some (get_word_count_status resume_text)
           repetition_status := some (get_repetition_status resume_text) }

/-! ## The deterministic scoring engine (spec sections 4.3-4.6)

The repository variant holding `deterministic_resume_score` is not among
the files under `src/`; the definitions below are models of the missing
engine built from the specification's wording. -/

/-- Modelled from the spec: the score aggregator's experience term
(spec section 4.6) — `min(years, 10) / 10 * 100` when a years estimate is
known, a neutral 50 otherwise; the engine file is absent from `src/`. -/
def exp_score (years : Option Nat) : ℚ :=
  match years with
  | some y => ((min y 10 : Nat) : ℚ) / 10 * 100
  | none => 50

/-- Modelled from the spec: the relevance score of the score aggregator
(spec section 4.6), a clamped rounded weighted sum of the skill-match
percentage, the experience term and the two boolean quality signals; the
engine file is absent from `src/`.  Written here over a common denominator
of 20; the claim theorem equates it with the spec's decimal-weight form. -/
def relevance_score_calc (skill_match_pct : Nat) (years : Option Nat)
    (quantifiable action_verbs : Bool) : Int :=
  max 0 (min 100 (round ((11 * skill_match_pct : ℚ) / 20 + exp_score years / 4
    + (if quantifiable then 10 else 0) + (if action_verbs then 10 else 0))))

/-- Modelled from the spec: the recommendation score (spec section 4.6) —
the relevance score minus 5 per missing skill, clamped to [0, 100]; the
engine file is absent from `src/`. -/
def recommendation_score_calc (relevance_score : Int) (missing_skills : List String) : Int :=
  max 0 (min 100 (relevance_score - 5 * missing_skills.length))

/-- Is the optional character a regex word character (`none` stands for the
edge of the text)? -/
def wordish (c : Option Char) : Bool :=
  match c with
  | some c => isWordChar c
  | none => false

/-- If `pat` is a prefix of `t`, return the character following the match
(`none` at end of text); otherwise signal failure. -/
def matchEnd : List Char → List Char → Option (Option Char)
  | t, [] => some t.head?
  | [], _ :: _ => none
  | tc :: ts, pc :: ps => if tc == pc then matchEnd ts ps else none

/-- Does the phrase `pat` occur at the start of `t` with regex word
boundaries on both sides?  `prev` is the character just before `t`. -/
def checkAt (prev : Option Char) (t : List Char) (pat : List Char) : Bool :=
  match matchEnd t pat with
  | some after => (wordish prev != wordish pat.head?) && (wordish pat.getLast? != wordish after)
  | none => false

/-- Scan `t` for an occurrence of `pat` with word boundaries; `prev` is the
character preceding `t`. -/
def foundAux (pat : List Char) : Option Char → List Char → Bool
  | prev, [] => checkAt prev [] pat
  | prev, c :: ts => checkAt prev (c :: ts) pat || foundAux pat (some c) ts

/-- Modelled from the spec: the skill matcher's per-entry test
(spec section 4.3) — a case-insensitive word-boundary search for the
literal phrase within the resume text; the engine file is absent from
`src/`. -/
def phrase_found (resume_text phrase : String) : Bool :=
  foundAux (lowerChars phrase) none (lowerChars resume_text)

/-- Modelled from the spec: `matched_skills` of the skill matcher
(spec section 4.3) — the vocabulary entries found in the resume, in
vocabulary order, capped at the top K = 8; the engine file is absent from
`src/`. -/
def matched_skills_calc (vocab : List String) (resume_text : String) : List String :=
  (vocab.filter (fun p => phrase_found resume_text p)).take 8

/-- Modelled from the spec: `missing_skills` of the skill matcher
(spec section 4.3) — entries among the first 12 vocabulary entries not
found in the resume, truncated to the first 3; the engine file is absent
from `src/`. -/
def missing_skills_calc (vocab : List String) (resume_text : String) : List String :=
  ((vocab.take 12).filter (fun p => !phrase_found resume_text p)).take 3

/-- Modelled from the spec: the `matched_skills` field of the
`AnalysisResult` (spec section 3) — the matcher's output with the sentinel
`["N/A"]` substituted when it is empty; the engine file is absent from
`src/`. -/
def matched_skills_field (vocab : List String) (resume_text : String) : List String :=
  let m := matched_skills_calc vocab resume_text
  if m = [] then ["N/A"] else m

/-- Modelled from the spec: the `missing_skills` field of the
`AnalysisResult` (spec section 3) — the matcher's output with the sentinel
`["N/A"]` substituted when it is empty; the engine file is absent from
`src/`. -/
def missing_skills_field (vocab : List String) (resume_text : String) : List String :=
  let m := missing_skills_calc vocab resume_text
  if m = [] then ["N/A"] else m

/-- Modelled from the spec: the integer skill-match percentage
(spec section 4.6) — the matched count over the vocabulary size with the
denominator clamped to between 1 and 10, as an integer clamped to
[0, 100]; the engine file is absent from `src/`. -/
def skill_match_pct (matched_count vocab_size : Nat) : Nat :=
  let denom := min (max vocab_size 1) 10
  min 100 (matched_count * 100 / denom)

/-- Modelled from the spec: the `skills_match` percentage label
(spec section 3) — the integer percentage followed by the percent sign;
the engine file is absent from `src/`. -/
def skills_match_label (matched_count vocab_size : Nat) : String :=
  toString (skill_match_pct matched_count vocab_size) ++ "%"

/-! ## The experience estimator (spec section 4.4), modelled from the spec -/

/-- One "N years" surface pattern: whether a literal plus sign follows the
number, whether a hyphen (rather than optional spaces) joins number and
unit, and the unit word itself. -/
structure YearsPattern where
  plus : Bool
  hyphen : Bool
  unit : List Char

/-- Modelled from the spec: the fixed ordered pattern list of the
experience estimator (spec section 4.4) — `N+ years`, `N years`, `N yr`,
`N-year`, `N yrs`; the engine file is absent from `src/`. -/
def yearsPatterns : List YearsPattern :=
  [⟨true, false, "years".data⟩,
   ⟨false, false, "years".data⟩,
   ⟨false, false, "yr".data⟩,
   ⟨false, true, "year".data⟩,
   ⟨false, false, "yrs".data⟩]

/-- Try pattern `p` at the start of `l` (already lower-cased): a maximal
digit run (not continuing an earlier number: `prevDigit` rules out matches
starting mid-number), then the optional plus sign, then either the hyphen
or optional spaces, then the unit word. -/
def matchYearsAt (p : YearsPattern) (l : List Char) (prevDigit : Bool) : Option Nat :=
  if prevDigit then none
  else
    let ds := l.takeWhile Char.isDigit
    if ds.isEmpty then none
    else
      let rest := l.dropWhile Char.isDigit
      let afterPlus : Option (List Char) :=
        if p.plus then
          match rest with
          | '+' :: r => some r
          | _ => none
        else some rest
      match afterPlus with
      | none => none
      | some r =>
        let afterSep : Option (List Char) :=
          if p.hyphen then
            match r with
            | '-' :: rr => some rr
            | _ => none
          else some (r.dropWhile Char.isWhitespace)
        match afterSep with
        | none => none
        | some rr => if p.unit.isPrefixOf rr then some (natOfDigits ds) else none

/-- Left-to-right scan of the text for pattern `p`; the boolean tells
whether the previous character was a digit. -/
def scanYears (p : YearsPattern) : Bool → List Char → Option Nat
  | _, [] => none
  | prevDigit, c :: cs =>
    match matchYearsAt p (c :: cs) prevDigit with
    | some n => some n
    | none => scanYears p c.isDigit cs

/-- Try the patterns in their fixed order over the whole text; the first
pattern that matches anywhere wins. -/
def firstPatternMatch : List YearsPattern → List Char → Option Nat
  | [], _ => none
  | p :: ps, l =>
    match scanYears p false l with
    | some n => some n
    | none => firstPatternMatch ps l

/-- Modelled from the spec: the regex phase of the experience estimator
(spec section 4.4) — try the fixed ordered "N years" pattern list,
case-insensitively, returning the first matched integer; the engine file
is absent from `src/`. -/
def regexYears (text : String) : Option Nat :=
  firstPatternMatch yearsPatterns (lowerChars text)

/-- Modelled from the spec: the candidate years of the date-range fallback
(spec section 4.4) — all 4-digit substrings (maximal digit runs of length
four) whose value lies in 1900-2099, distinct values kept in first-seen
order; the engine file is absent from `src/`. -/
def yearCandidates (text : String) : List Nat :=
  dedupFirst (((runsOf Char.isDigit text.data).filter (fun r => r.length == 4)).map natOfDigits
    |>.filter (fun n => 1900 ≤ n && n ≤ 2099))

/-- Modelled from the spec: the date-range fallback of the experience
estimator (spec section 4.4) — when at least two distinct years are found,
`max(years) - min(years)` (truncated `Nat` subtraction realizes the clamp
to ≥ 0); the engine file is absent from `src/`. -/
def dateRangeYears (text : String) : Option Nat :=
  let ys := yearCandidates text
  if 2 ≤ ys.length then
    match ys.max?, ys.min? with
    | some hi, some lo => some (hi - lo)
    | _, _ => none
  else none

/-- Modelled from the spec: the full experience estimator
(spec section 4.4) — the regex phase first, the date-range fallback when
no pattern matched; the engine file is absent from `src/`. -/
def experienceEstimate (text : String) : Option Nat :=
  match regexYears text with
  | some n => some n
  | none => dateRangeYears text

/-- Modelled from the spec: the `years_experience` field derived from the
estimator (spec section 3) — `"<N>+ Years"` for an estimate N, the
sentinel `"Not Specified"` when the estimator found no signal; the engine
file is absent from `src/`. -/
def years_experience_field (text : String) : String :=
  match experienceEstimate text with
  | some n => toString n ++ "+ Years"
  | none => "Not Specified"

/-! ## Helper lemmas -/

/-- The worker behind `mostCommon` is sound: when it answers `some (w, c)`
starting from a `best` whose count is accurate, the answer's count is the
count of the answer's word, dominates the count of every word of the
remaining key list, and dominates the starting best. -/
theorem mostCommonAux_some_spec (ws : List String) :
    ∀ (l : List String) (best : Option (String × Nat)) (w : String) (c : Nat),
    (∀ bw bc, best = some (bw, bc) → bc = countOccs bw ws) →
    mostCommonAux ws l best = some (w, c) →
    c = countOccs w ws
    ∧ (∀ u ∈ l, countOccs u ws ≤ c)
    ∧ (∀ bw bc, best = some (bw, bc) → bc ≤ c) := by
  intro l
  induction l with
  | nil =>
    intro best w c hbest h
    simp only [mostCommonAux] at h
    refine ⟨hbest w c h, by simp, ?_⟩
    intro bw bc hb
    rw [hb] at h
    injection h with h
    injection h with h1 h2
    omega
  | cons x xs ih =>
    intro best w c hbest h
    simp only [mostCommonAux] at h
    cases best with
    | none =>
      obtain ⟨h1, h2, h3⟩ := ih (some (x, countOccs x ws)) w c
        (by intro bw bc hb; injection hb with hb; injection hb with hb1 hb2; rw [← hb1, ← hb2]) h
      refine ⟨h1, ?_, by intro bw bc hb; cases hb⟩
      intro u hu
      rcases List.mem_cons.mp hu with hux | hux
      · rw [hux]; exact h3 x (countOccs x ws) rfl
      · exact h2 u hux
    | some p =>
      obtain ⟨bw, bc⟩ := p
      dsimp only at h
      by_cases hlt : bc < countOccs x ws
      · rw [if_pos hlt] at h
        obtain ⟨h1, h2, h3⟩ := ih (some (x, countOccs x ws)) w c
          (by intro bw' bc' hb; injection hb with hb; injection hb with hb1 hb2; rw [← hb1, ← hb2]) h
        refine ⟨h1, ?_, ?_⟩
        · intro u hu
          rcases List.mem_cons.mp hu with hux | hux
          · rw [hux]; exact h3 x (countOccs x ws) rfl
          · exact h2 u hux
        · intro bw' bc' hb
          injection hb with hb
          injection hb with hb1 hb2
          have := h3 x (countOccs x ws) rfl
          omega
      · rw [if_neg hlt] at h
        obtain ⟨h1, h2, h3⟩ := ih (some (bw, bc)) w c hbest h
        refine ⟨h1, ?_, h3⟩
        intro u hu
        rcases List.mem_cons.mp hu with hux | hux
        · have := h3 bw bc rfl
          rw [hux]
          omega
        · exact h2 u hux

/-- Every element of a list survives first-occurrence deduplication (or was
already recorded as seen). -/
theorem mem_dedupAux {α : Type} [BEq α] [LawfulBEq α] :
    ∀ (l seen : List α) (u : α), u ∈ l → u ∈ dedupAux l seen ∨ u ∈ seen := by
  intro l
  induction l with
  | nil => intro seen u hu; cases hu
  | cons x xs ih =>
    intro seen u hu
    simp only [dedupAux]
    by_cases hc : seen.contains x
    · rw [if_pos hc]
      rcases List.mem_cons.mp hu with hux | hux
      · right; rw [hux]; exact List.elem_iff.mp hc
      · exact ih seen u hux
    · rw [if_neg hc]
      rcases List.mem_cons.mp hu with hux | hux
      · left; rw [hux]; exact List.mem_cons_self x _
      · rcases ih (x :: seen) u hux with h | h
        · left; exact List.mem_cons_of_mem x h
        · rcases List.mem_cons.mp h with h2 | h2
          · left; rw [h2]; exact List.mem_cons_self x _
          · right; exact h2

/-- Every element of a list is in its first-occurrence deduplication. -/
theorem mem_dedupFirst {α : Type} [BEq α] [LawfulBEq α] (l : List α) (u : α)
    (hu : u ∈ l) : u ∈ dedupFirst l := by
  rcases mem_dedupAux l [] u hu with h | h
  · exact h
  · cases h

/-- Soundness of the `Counter.most_common(1)` model: the reported pair is a
word of maximal occurrence count, and the count is accurate. -/
theorem mostCommon_spec (ws : List String) (w : String) (c : Nat)
    (h : mostCommon ws = some (w, c)) :
    c = countOccs w ws ∧ ∀ u ∈ ws, countOccs u ws ≤ c := by
  obtain ⟨h1, h2, _⟩ := mostCommonAux_some_spec ws (dedupFirst ws) none w c
    (by intro bw bc hb; cases hb) h
  exact ⟨h1, fun u hu => h2 u (mem_dedupFirst ws u hu)⟩

/-- The "Too Short" and "Optimal Length" labels differ for any embedded
count text (their lengths differ by 4). -/
theorem short_label_ne_optimal_label (s : String) :
    "⚠️ Too Short (" ++ s ++ " words)" ≠ "✅ Optimal Length (" ++ s ++ " words)" := by
  intro h
  have h2 := congrArg String.length h
  simp only [String.length_append] at h2
  have e1 : ("⚠️ Too Short (" : String).length = 14 := rfl
  have e2 : ("✅ Optimal Length (" : String).length = 18 := rfl
  omega

/-- The "Too Short" and "Too Long" labels differ for any embedded count
text (their lengths differ by 1). -/
theorem short_label_ne_long_label (s : String) :
    "⚠️ Too Short (" ++ s ++ " words)" ≠ "⚠️ Too Long (" ++ s ++ " words)" := by
  intro h
  have h2 := congrArg String.length h
  simp only [String.length_append] at h2
  have e1 : ("⚠️ Too Short (" : String).length = 14 := rfl
  have e2 : ("⚠️ Too Long (" : String).length = 13 := rfl
  omega

/-- The "Optimal Length" and "Too Long" labels differ for any embedded
count text (their lengths differ by 5). -/
theorem optimal_label_ne_long_label (s : String) :
    "✅ Optimal Length (" ++ s ++ " words)" ≠ "⚠️ Too Long (" ++ s ++ " words)" := by
  intro h
  have h2 := congrArg String.length h
  simp only [String.length_append] at h2
  have e1 : ("✅ Optimal Length (" : String).length = 18 := rfl
  have e2 : ("⚠️ Too Long (" : String).length = 13 := rfl
  omega

/-- The float comparison `count / total * 100 > 4.5` of the source, read
over exact rationals, is the integer comparison `200 * count > 9 * total`. -/
theorem share_gt_iff (c total : Nat) (h : 0 < total) :
    ((c : ℚ) / (total : ℚ)) * 100 > 4.5 ↔ 200 * c > 9 * total := by
  have ht : (0 : ℚ) < (total : ℚ) := by exact_mod_cast h
  rw [gt_iff_lt, div_mul_eq_mul_div, lt_div_iff₀ ht]
  constructor
  · intro hlt
    have h2 : (9 : ℚ) * (total : ℚ) < 200 * (c : ℚ) := by nlinarith
    exact_mod_cast h2
  · intro hgt
    have h2 : (9 : ℚ) * (total : ℚ) < 200 * (c : ℚ) := by exact_mod_cast hgt
    nlinarith

/-- The word-boundary phrase search only sees the lower-cased phrase, so
two phrases equal up to case cannot be classified differently. -/
theorem phrase_found_congr (resume_text p q : String) (h : lowerChars p = lowerChars q) :
    phrase_found resume_text p = phrase_found resume_text q := by
  unfold phrase_found
  rw [h]

/-- A fixed successful suggestion oracle, used by concrete witnesses. -/
def okOracle : SuggestionOracle := fun _ => Except.ok "text"

/-- The analysis result produced by `analyze_single_resume` on the inputs
`"resume"`, `"jd"`, an all-defaults parsed record and `okOracle`; used by
concrete witnesses. -/
def sampleResult : AnalysisResult :=
  { validate_analysis_result emptyFields with
    improvement_suggestions := get_improvement_suggestions "jd" (validate_analysis_result emptyFields) okOracle
    word_count_status := some (get_word_count_status "resume")
    repetition_status := some (get_repetition_status "resume") }

/-! ## Claim theorems -/

/-- Claim C1: the three score fields of every analysis result handed back
to the caller are integers clamped into [0, 100] — `validate_analysis_result`
yields a record whose `relevance_score`, `skills_match` and
`recommendation_score` lie in [0, 100] for every well-typed input record,
and every result `analyze_single_resume` returns inherits those bounds. -/
theorem validate_analysis_result_scores_bounded :
    ∀ result : AnalysisFields,
    (0 ≤ (validate_analysis_result result).relevance_score
      ∧ (validate_analysis_result result).relevance_score ≤ 100)
    ∧ (0 ≤ (validate_analysis_result result).skills_match
      ∧ (validate_analysis_result result).skills_match ≤ 100)
    ∧ (0 ≤ (validate_analysis_result result).recommendation_score
      ∧ (validate_analysis_result result).recommendation_score ≤ 100)
    ∧ (∀ (resume_text job_description : String) (main : MainOutcome)
        (suggest : SuggestionOracle) (res : AnalysisResult),
        analyze_single_resume resume_text job_description main suggest = some res →
        0 ≤ res.relevance_score ∧ res.relevance_score ≤ 100
        ∧ 0 ≤ res.skills_match ∧ res.skills_match ≤ 100
        ∧ 0 ≤ res.recommendation_score ∧ res.recommendation_score ≤ 100) := by
  intro result
  have hb : ∀ x : Int, 0 ≤ max 0 (min 100 x) ∧ max 0 (min 100 x) ≤ 100 := by
    intro x; omega
  refine ⟨hb _, hb _, hb _, ?_⟩
  intro rt jd main suggest res h
  cases main with
  | raised msg => simp [analyze_single_resume] at h
  | noJson => simp [analyze_single_resume] at h
  | parsed fields =>
    simp only [analyze_single_resume, Option.some.injEq] at h
    rw [← h]
    exact ⟨(hb _).1, (hb _).2, (hb _).1, (hb _).2, (hb _).1, (hb _).2⟩

/-- Witness for C1: the bounds at a concrete call of the analysis. -/
theorem validate_analysis_result_scores_bounded_witness :
    0 ≤ sampleResult.relevance_score ∧ sampleResult.relevance_score ≤ 100
    ∧ 0 ≤ sampleResult.skills_match ∧ sampleResult.skills_match ≤ 100
    ∧ 0 ≤ sampleResult.recommendation_score ∧ sampleResult.recommendation_score ≤ 100 :=
  (validate_analysis_result_scores_bounded emptyFields).2.2.2
    "resume" "jd" (MainOutcome.parsed emptyFields) okOracle sampleResult rfl

/-- Claim C2, counterexample: with well-typed string inputs but a
collaborator answer from which no JSON can be extracted,
`analyze_single_resume` does not return an analysis result — it returns
`None` (after `st.error`), so "always returns a fully populated
`AnalysisResult`" fails as stated. -/
theorem analyze_none_on_unparseable_response :
    analyze_single_resume "resume text" "job description" MainOutcome.noJson okOracle = none :=
  rfl

/-- Claim C2, amended: `analyze_single_resume` never raises (it is total);
it returns a result exactly when the collaborator's answer was parsed, in
which case every required field is present — each field missing from the
parsed record carries its documented default — and the two quality fields
are attached; on a failed JSON extraction or a raised exception it returns
`None` instead of a populated result. -/
theorem analyze_single_resume_total_and_defaulted :
    ∀ (resume_text job_description : String) (suggest : SuggestionOracle),
    (∀ fields, (analyze_single_resume resume_text job_description
        (MainOutcome.parsed fields) suggest).isSome = true)
    ∧ (analyze_single_resume resume_text job_description MainOutcome.noJson suggest = none)
    ∧ (∀ msg, analyze_single_resume resume_text job_description
        (MainOutcome.raised msg) suggest = none)
    ∧ (∀ res, analyze_single_resume resume_text job_description
        (MainOutcome.parsed emptyFields) suggest = some res →
        res.relevance_score = 0 ∧ res.skills_match = 0
        ∧ res.years_experience = "Not Specified"
        ∧ res.education_level = "Not Specified"
        ∧ res.matched_skills = [] ∧ res.missing_skills = []
        ∧ res.recommendation_summary = "Analysis incomplete."
        ∧ res.uses_action_verbs = false
        ∧ res.has_quantifiable_results = false
        ∧ res.recommendation_score = 0
        ∧ res.word_count_status = some (get_word_count_status resume_text)
        ∧ res.repetition_status = some (get_repetition_status resume_text)) := by
  intro resume_text job_description suggest
  refine ⟨fun fields => rfl, rfl, fun msg => rfl, ?_⟩
  intro res h
  simp only [analyze_single_resume, Option.some.injEq] at h
  rw [← h]
  exact ⟨rfl, rfl, rfl, rfl, rfl, rfl, rfl, rfl, rfl, rfl, rfl, rfl⟩

/-- Witness for the amended C2: the defaulted fields at a concrete call. -/
theorem analyze_single_resume_total_and_defaulted_witness :
    sampleResult.relevance_score = 0 ∧ sampleResult.skills_match = 0
    ∧ sampleResult.years_experience = "Not Specified"
    ∧ sampleResult.education_level = "Not Specified"
    ∧ sampleResult.matched_skills = [] ∧ sampleResult.missing_skills = []
    ∧ sampleResult.recommendation_summary = "Analysis incomplete."
    ∧ sampleResult.uses_action_verbs = false
    ∧ sampleResult.has_quantifiable_results = false
    ∧ sampleResult.recommendation_score = 0
    ∧ sampleResult.word_count_status = some (get_word_count_status "resume")
    ∧ sampleResult.repetition_status = some (get_repetition_status "resume") :=
  (analyze_single_resume_total_and_defaulted "resume" "jd" okOracle).2.2.2 sampleResult rfl

/-- Two optional analysis results agree on every field except
`improvement_suggestions`. -/
def agreesExceptSuggestions : Option AnalysisResult → Option AnalysisResult → Prop
  | none, none => True
  | some x, some y =>
    x.relevance_score = y.relevance_score ∧ x.skills_match = y.skills_match
    ∧ x.years_experience = y.years_experience ∧ x.education_level = y.education_level
    ∧ x.matched_skills = y.matched_skills ∧ x.missing_skills = y.missing_skills
    ∧ x.recommendation_summary = y.recommendation_summary
    ∧ x.uses_action_verbs = y.uses_action_verbs
    ∧ x.has_quantifiable_results = y.has_quantifiable_results
    ∧ x.recommendation_score = y.recommendation_score
    ∧ x.word_count_status = y.word_count_status
    ∧ x.repetition_status = y.repetition_status
  | _, _ => False

/-- Claim C4, counterexample: two calls of `analyze_single_resume` with
identical (job description, resume) strings can disagree on
`relevance_score` — a factual field, not the summary text — because every
field of the result is read from the external collaborator's sampled
answer; only fixing the collaborator outcome fixes the result. -/
theorem analyze_relevance_varies_with_collaborator :
    (analyze_single_resume "resume" "jd"
        (MainOutcome.parsed { emptyFields with relevance_score := some 10 }) okOracle).map
      (fun r => r.relevance_score) = some 10
    ∧ (analyze_single_resume "resume" "jd"
        (MainOutcome.parsed { emptyFields with relevance_score := some 20 }) okOracle).map
      (fun r => r.relevance_score) = some 20 :=
  ⟨rfl, rfl⟩

/-- Claim C4, amended: the analysis is deterministic relative to the
collaborator — `analyze_single_resume` is a pure function of the input
strings and the two collaborator outcomes, and with the main outcome fixed
the results of two calls agree on every field except the
suggestion-collaborator-supplied `improvement_suggestions` text. -/
theorem analyze_deterministic_modulo_suggestions :
    ∀ (resume_text job_description : String) (main : MainOutcome)
      (s₁ s₂ : SuggestionOracle),
    agreesExceptSuggestions
      (analyze_single_resume resume_text job_description main s₁)
      (analyze_single_resume resume_text job_description main s₂) := by
  intro resume_text job_description main s₁ s₂
  cases main with
  | raised msg => trivial
  | noJson => trivial
  | parsed fields =>
    exact ⟨rfl, rfl, rfl, rfl, rfl, rfl, rfl, rfl, rfl, rfl, rfl, rfl⟩

/-- Claim C7: when the suggestion collaborator errors, the operation
recovers locally with the fixed fallback text and returns normally; the
failure is never propagated (the embedding is a total function). -/
theorem improvement_suggestions_fallback :
    ∀ (job_description : String) (r : AnalysisResult) (llm : SuggestionOracle) (e : String),
    llm (suggestion_prompt job_description r) = Except.error e →
    get_improvement_suggestions job_description r llm
      = "Suggestions could not be generated at this time." := by
  intro job_description r llm e h
  unfold get_improvement_suggestions
  rw [h]

/-- Witness for C7: a concrete always-failing collaborator triggers the
fallback. -/
theorem improvement_suggestions_fallback_witness :
    get_improvement_suggestions "jd" (validate_analysis_result emptyFields)
      (fun _ => Except.error "collaborator down")
      = "Suggestions could not be generated at this time." :=
  improvement_suggestions_fallback "jd" (validate_analysis_result emptyFields)
    (fun _ => Except.error "collaborator down") "collaborator down" rfl

/-- Claim C3: the relevance score is
round(0.55·skill_match_pct + 0.25·exp_score + 0.10·(100 if quantifiable)
+ 0.10·(100 if action verbs)) clamped to [0, 100], with exp_score equal to
min(years, 10)/10·100 when a years estimate is known and the neutral 50
otherwise; the recommendation score is the relevance score minus 5 per
missing skill, clamped to [0, 100]. -/
theorem deterministic_score_formulas :
    ∀ (pct : Nat) (years : Option Nat) (quantifiable action_verbs : Bool)
      (missing_skills : List String) (relevance : Int),
    relevance_score_calc pct years quantifiable action_verbs
      = max 0 (min 100 (round ((0.55 : ℚ) * pct + (0.25 : ℚ) * exp_score years
          + (0.10 : ℚ) * (if quantifiable then 100 else 0)
          + (0.10 : ℚ) * (if action_verbs then 100 else 0))))
    ∧ exp_score years = (match years with
        | some y => ((min y 10 : Nat) : ℚ) / 10 * 100
        | none => 50)
    ∧ recommendation_score_calc relevance missing_skills
      = max 0 (min 100 (relevance - 5 * missing_skills.length)) := by
  intro pct years quantifiable action_verbs missing_skills relevance
  refine ⟨?_, rfl, rfl⟩
  unfold relevance_score_calc
  have harg : (11 * pct : ℚ) / 20 + exp_score years / 4
      + (if quantifiable then (10 : ℚ) else 0) + (if action_verbs then (10 : ℚ) else 0)
      = (0.55 : ℚ) * pct + (0.25 : ℚ) * exp_score years
        + (0.10 : ℚ) * (if quantifiable then 100 else 0)
        + (0.10 : ℚ) * (if action_verbs then 100 else 0) := by
    cases quantifiable <;> cases action_verbs <;> norm_num <;> ring
  rw [harg]

/-- The matched and missing outputs of the skill matcher, before the
sentinel substitution, share no element under case-insensitive comparison:
both are filters of the vocabulary by the same case-insensitive
found/not-found test. -/
theorem matched_missing_disjoint :
    ∀ (vocab : List String) (resume_text : String) (x y : String),
    x ∈ matched_skills_calc vocab resume_text →
    y ∈ missing_skills_calc vocab resume_text →
    lowerChars x ≠ lowerChars y := by
  intro vocab resume_text x y hx hy heq
  have hx2 : x ∈ vocab.filter (fun p => phrase_found resume_text p) :=
    List.take_subset 8 _ hx
  have hy2 : y ∈ (vocab.take 12).filter (fun p => !phrase_found resume_text p) :=
    List.take_subset 3 _ hy
  have hfx : phrase_found resume_text x = true := (List.mem_filter.mp hx2).2
  have hfy : (!phrase_found resume_text y) = true := (List.mem_filter.mp hy2).2
  have hfy2 : phrase_found resume_text y = false := by
    cases hcase : phrase_found resume_text y
    · rfl
    · rw [hcase] at hfy; cases hfy
  have := phrase_found_congr resume_text x y heq
  rw [hfx, hfy2] at this
  cases this

/-- Claim C5, counterexample: in the degenerate empty-vocabulary case
(spec section 7; e.g. an empty job description) both matcher outputs are
empty, so after the sentinel substitution of spec section 3 the
`matched_skills` and `missing_skills` fields of the result are both
`["N/A"]` and share the element "N/A" under case-insensitive comparison —
the claimed disjointness fails on this `AnalysisResult`. -/
theorem matched_missing_sentinel_overlap :
    "N/A" ∈ matched_skills_field [] "Anything"
    ∧ "N/A" ∈ missing_skills_field [] "Anything"
    ∧ lowerChars "N/A" = lowerChars "N/A" :=
  ⟨by decide, by decide, rfl⟩

/-- Claim C5, amended: the matcher's matched and missing outputs are always
disjoint under case-insensitive comparison, and the final `matched_skills`
and `missing_skills` fields of the result can share an element
(case-insensitively) only through the sentinel: any shared element forces
at least one of the two matcher outputs to have been empty and replaced by
`["N/A"]`. -/
theorem matched_missing_disjoint_unless_sentinel :
    ∀ (vocab : List String) (resume_text : String),
    (∀ x ∈ matched_skills_calc vocab resume_text,
     ∀ y ∈ missing_skills_calc vocab resume_text,
     lowerChars x ≠ lowerChars y)
    ∧ (∀ x ∈ matched_skills_field vocab resume_text,
       ∀ y ∈ missing_skills_field vocab resume_text,
       lowerChars x = lowerChars y →
       matched_skills_calc vocab resume_text = []
       ∨ missing_skills_calc vocab resume_text = []) := by
  intro vocab resume_text
  constructor
  · intro x hx y hy
    exact matched_missing_disjoint vocab resume_text x y hx hy
  · intro x hx y hy heq
    by_cases hm : matched_skills_calc vocab resume_text = []
    · exact Or.inl hm
    by_cases hn : missing_skills_calc vocab resume_text = []
    · exact Or.inr hn
    exfalso
    have hx2 : x ∈ matched_skills_calc vocab resume_text := by
      simpa [matched_skills_field, hm] using hx
    have hy2 : y ∈ missing_skills_calc vocab resume_text := by
      simpa [missing_skills_field, hn] using hy
    exact matched_missing_disjoint vocab resume_text x y hx2 hy2 heq

/-- Witness for the amended C5: disjointness at a concrete vocabulary and
resume with one matched and one missing skill, and the sentinel case at
an empty vocabulary. -/
theorem matched_missing_disjoint_unless_sentinel_witness :
    lowerChars "SQL" ≠ lowerChars "Go"
    ∧ (matched_skills_calc [] "Anything" = [] ∨ missing_skills_calc [] "Anything" = []) :=
  ⟨(matched_missing_disjoint_unless_sentinel ["SQL", "Go"] "sql dev").1
     "SQL" (by decide) "Go" (by decide),
   (matched_missing_disjoint_unless_sentinel [] "Anything").2
     "N/A" (by decide) "N/A" (by decide) rfl⟩

/-- Claim C8: the `skills_match` field of the deterministic engine is a
percentage label derived from the matched/vocabulary ratio — the integer
percentage (denominator clamped to between 1 and 10) clamped to at most
100 (it is a `Nat`, hence at least 0), followed by the percent sign. -/
theorem skills_match_label_spec :
    ∀ matched_count vocab_size : Nat,
    skill_match_pct matched_count vocab_size ≤ 100
    ∧ skills_match_label matched_count vocab_size
      = toString (skill_match_pct matched_count vocab_size) ++ "%" := by
  intro matched_count vocab_size
  exact ⟨Nat.min_le_left 100 _, rfl⟩

/-- Claim C6: the experience estimator first tries the fixed ordered
"N years" pattern list (case-insensitive) and returns the first matched
integer; when no pattern matches it falls back to the distinct 4-digit
years in 1900-2099 and, given at least two, returns max − min (truncated
`Nat` subtraction realizes the ≥ 0 clamp); when both phases fail the
`years_experience` field is the sentinel "Not Specified". -/
theorem experience_estimator_spec :
    ∀ text : String,
    (∀ n, regexYears text = some n → experienceEstimate text = some n)
    ∧ (regexYears text = none → experienceEstimate text = dateRangeYears text)
    ∧ (∀ hi lo, 2 ≤ (yearCandidates text).length →
        (yearCandidates text).max? = some hi → (yearCandidates text).min? = some lo →
        dateRangeYears text = some (hi - lo))
    ∧ ((yearCandidates text).length < 2 → dateRangeYears text = none)
    ∧ (regexYears text = none → dateRangeYears text = none →
        years_experience_field text = "Not Specified") := by
  intro text
  refine ⟨?_, ?_, ?_, ?_, ?_⟩
  · intro n h
    simp only [experienceEstimate, h]
  · intro h
    simp only [experienceEstimate, h]
  · intro hi lo hlen hmax hmin
    simp only [dateRangeYears, if_pos hlen, hmax, hmin]
  · intro hlen
    have : ¬ 2 ≤ (yearCandidates text).length := by omega
    simp only [dateRangeYears, if_neg this]
  · intro h1 h2
    simp only [years_experience_field, experienceEstimate, h1, h2]

/-- Witness for C6: a resume with no "N years" phrase but a 2015-2019 date
range estimates 4 years via the fallback. -/
theorem experience_estimator_spec_witness :
    regexYears "from 2015 to 2019" = none
    ∧ dateRangeYears "from 2015 to 2019" = some 4
    ∧ experienceEstimate "from 2015 to 2019" = dateRangeYears "from 2015 to 2019" :=
  ⟨rfl,
   (experience_estimator_spec "from 2015 to 2019").2.2.1 2019 2015
     (by decide) (by decide) (by decide),
   (experience_estimator_spec "from 2015 to 2019").2.1 rfl⟩

/-- The word-count bucketing over an arbitrary count `n`: each of the three
labels is produced exactly on its bucket (label distinctness comes from the
length lemmas above). -/
theorem word_count_bucket_iff (n : Nat) :
    ((if n < 200 then "⚠️ Too Short (" ++ toString n ++ " words)"
      else if 200 ≤ n ∧ n ≤ 600 then "✅ Optimal Length (" ++ toString n ++ " words)"
      else "⚠️ Too Long (" ++ toString n ++ " words)")
        = "⚠️ Too Short (" ++ toString n ++ " words)" ↔ n < 200)
    ∧ ((if n < 200 then "⚠️ Too Short (" ++ toString n ++ " words)"
      else if 200 ≤ n ∧ n ≤ 600 then "✅ Optimal Length (" ++ toString n ++ " words)"
      else "⚠️ Too Long (" ++ toString n ++ " words)")
        = "✅ Optimal Length (" ++ toString n ++ " words)" ↔ 200 ≤ n ∧ n ≤ 600)
    ∧ ((if n < 200 then "⚠️ Too Short (" ++ toString n ++ " words)"
      else if 200 ≤ n ∧ n ≤ 600 then "✅ Optimal Length (" ++ toString n ++ " words)"
      else "⚠️ Too Long (" ++ toString n ++ " words)")
        = "⚠️ Too Long (" ++ toString n ++ " words)" ↔ 600 < n) := by
  by_cases h1 : n < 200
  · rw [if_pos h1]
    refine ⟨⟨fun _ => h1, fun _ => rfl⟩, ⟨?_, ?_⟩, ⟨?_, ?_⟩⟩
    · intro hEq; exact absurd hEq (short_label_ne_optimal_label _)
    · intro hco; exact absurd hco.1 (by omega)
    · intro hEq; exact absurd hEq (short_label_ne_long_label _)
    · intro hgt; exact absurd hgt (by omega)
  · by_cases h2 : n ≤ 600
    · have hc : 200 ≤ n ∧ n ≤ 600 := ⟨by omega, h2⟩
      rw [if_neg h1, if_pos hc]
      refine ⟨⟨?_, ?_⟩, ⟨fun _ => hc, fun _ => rfl⟩, ⟨?_, ?_⟩⟩
      · intro hEq; exact absurd hEq.symm (short_label_ne_optimal_label _)
      · intro hlt; exact absurd hlt h1
      · intro hEq; exact absurd hEq (optimal_label_ne_long_label _)
      · intro hgt; exact absurd hgt (by omega)
    · have hc : ¬ (200 ≤ n ∧ n ≤ 600) := by omega
      rw [if_neg h1, if_neg hc]
      refine ⟨⟨?_, ?_⟩, ⟨?_, ?_⟩, ⟨fun _ => by omega, fun _ => rfl⟩⟩
      · intro hEq; exact absurd hEq.symm (short_label_ne_long_label _)
      · intro hlt; exact absurd hlt h1
      · intro hEq; exact absurd hEq.symm (optimal_label_ne_long_label _)
      · intro hco; exact absurd hco hc

/-- Claim C9: `get_word_count_status` is total and returns exactly one of
three labels, determined by the whitespace-word count n of the text: the
"Too Short" label iff n < 200, the "Optimal Length" label iff
200 ≤ n ≤ 600, the "Too Long" label iff n > 600, with n embedded verbatim
in the label. -/
theorem get_word_count_status_spec :
    ∀ text : String,
    (get_word_count_status text
        = "⚠️ Too Short (" ++ toString (resume_word_count text) ++ " words)"
      ↔ resume_word_count text < 200)
    ∧ (get_word_count_status text
        = "✅ Optimal Length (" ++ toString (resume_word_count text) ++ " words)"
      ↔ 200 ≤ resume_word_count text ∧ resume_word_count text ≤ 600)
    ∧ (get_word_count_status text
        = "⚠️ Too Long (" ++ toString (resume_word_count text) ++ " words)"
      ↔ 600 < resume_word_count text) := by
  intro text
  exact word_count_bucket_iff (resume_word_count text)

/-- Witness for C9: a two-word text is bucketed as too short. -/
theorem get_word_count_status_spec_witness :
    get_word_count_status "hello there" = "⚠️ Too Short (2 words)" :=
  (get_word_count_status_spec "hello there").1.mpr (by decide)

/-- Claim C10: `get_repetition_status` is total (no exception can escape:
the embedding is a Lean function); with fewer than 20 filtered words it
returns the "Low Repetition" label; otherwise, writing (w, c) for the most
frequent filtered word and its count (our `mostCommon` is proved sound
here: c is w's occurrence count and no word occurs more often), it returns
the high-repetition label naming w when w's share strictly exceeds 4.5
percent of the filtered list (the float test `c/total*100 > 4.5` is the
integer test `200c > 9·total`), and the "Low Repetition" label otherwise. -/
theorem get_repetition_status_spec :
    ∀ text : String,
    ((repetition_words text).length < 20 →
      get_repetition_status text = "✅ Low Repetition")
    ∧ (∀ w c, 20 ≤ (repetition_words text).length →
        mostCommon (repetition_words text) = some (w, c) →
        (c = countOccs w (repetition_words text)
          ∧ ∀ u ∈ repetition_words text, countOccs u (repetition_words text) ≤ c)
        ∧ (200 * c > 9 * (repetition_words text).length →
            get_repetition_status text
              = "⚠️ High repetition of \x27" ++ pyTitle w ++ "\x27")
        ∧ (¬ 200 * c > 9 * (repetition_words text).length →
            get_repetition_status text = "✅ Low Repetition")) := by
  intro text
  constructor
  · intro h
    simp only [get_repetition_status, if_pos h]
  · intro w c hlen hmc
    have hnl : ¬ (repetition_words text).length < 20 := by omega
    have hpos : 0 < (repetition_words text).length := by omega
    refine ⟨mostCommon_spec _ _ _ hmc, ?_, ?_⟩
    · intro hgt
      have hq : ((c : ℚ) / (((repetition_words text).length : Nat) : ℚ)) * 100 > 4.5 :=
        (share_gt_iff c _ hpos).mpr hgt
      simp only [get_repetition_status, if_neg hnl, hmc, if_pos hq]
    · intro hngt
      have hq : ¬ ((c : ℚ) / (((repetition_words text).length : Nat) : ℚ)) * 100 > 4.5 := by
        intro hq
        exact hngt ((share_gt_iff c _ hpos).mp hq)
      simp only [get_repetition_status, if_neg hnl, hmc, if_neg hq]

/-- Witness for C10: twenty filtered words with "xa" occurring twice — a
10 percent share — trigger the high-repetition label naming "Xa". -/
theorem get_repetition_status_spec_witness :
    get_repetition_status "xa xa xb xc xd xe xf xg xh xi xj xk xl xm xn xo xp xq xr xs"
      = "⚠️ High repetition of \x27Xa\x27" :=
  ((get_repetition_status_spec
      "xa xa xb xc xd xe xf xg xh xi xj xk xl xm xn xo xp xq xr xs").2
    "xa" 2 (by decide) (by decide)).2.1 (by decide)

end ResumeChecker
